import Mathlib

/-
Verification of the simplechat Lambda handler (src/lambda/index.py).

The Python module is shallowly embedded as executable Lean definitions:
  - JSON-decoded Python values are the inductive type `Json`
    (numbers are restricted to integers; no claim involves a numeric
    payload value).
  - Exceptions raised by the Python runtime are the inductive `PyExn`;
    the Python rendering str(e) is `pyStrExn`.
  - `json.loads` is an abstract parameter `loads : String → Option Json`
    (returning `none` models a raised `ValueError`/`JSONDecodeError`;
    its message text is abstracted to a fixed string).
  - `json.dumps(j, ensure_ascii=False)` is modelled by tagging the
    response body with `RBody.jsonBody j`.
  - the single `urllib.request.urlopen` call is an abstract oracle
    `http : HttpRequest → HttpResult`; every request the code issues is
    recorded in a trace (second component of the results), so that
    claims about "the downstream call is / is not attempted" are
    statable.
-/

namespace SimpleChat

/-- A JSON-decoded Python value (dict, list, str, int, bool, None). -/
inductive Json where
  | null : Json
  | bool (b : Bool) : Json
  | num (n : Int) : Json
  | str (s : String) : Json
  | arr (xs : List Json) : Json
  | obj (kvs : List (String × Json)) : Json

/-- Python dict lookup on the association-list representation
(json-decoded dicts have unique keys, so first match is the value). -/
def jLookup : List (String × Json) → String → Option Json
  | [], _ => none
  | (k, v) :: kvs, key => if k = key then some v else jLookup kvs key

mutual

/-- Boolean structural equality on `Json` (used to state concrete
disequalities, since `DecidableEq` cannot be derived for this nested
inductive in this toolchain). -/
def Json.beq : Json → Json → Bool
  | .null, .null => true
  | .bool a, .bool b => a == b
  | .num a, .num b => a == b
  | .str a, .str b => a == b
  | .arr a, .arr b => Json.beqList a b
  | .obj a, .obj b => Json.beqObj a b
  | _, _ => false

/-- Pointwise `Json.beq` on lists. -/
def Json.beqList : List Json → List Json → Bool
  | [], [] => true
  | x :: xs, y :: ys => Json.beq x y && Json.beqList xs ys
  | _, _ => false

/-- Pointwise `Json.beq` on key/value lists. -/
def Json.beqObj : List (String × Json) → List (String × Json) → Bool
  | [], [] => true
  | (k, v) :: xs, (l, w) :: ys => k == l && Json.beq v w && Json.beqObj xs ys
  | _, _ => false

end

mutual

theorem Json.beq_refl : ∀ a : Json, Json.beq a a = true
  | .null => rfl
  | .bool b => by simp [Json.beq]
  | .num n => by simp [Json.beq]
  | .str s => by simp [Json.beq]
  | .arr xs => by simpa [Json.beq] using Json.beqList_refl xs
  | .obj kvs => by simpa [Json.beq] using Json.beqObj_refl kvs

theorem Json.beqList_refl : ∀ xs : List Json, Json.beqList xs xs = true
  | [] => rfl
  | x :: xs => by simp [Json.beqList, Json.beq_refl x, Json.beqList_refl xs]

theorem Json.beqObj_refl : ∀ kvs : List (String × Json), Json.beqObj kvs kvs = true
  | [] => rfl
  | (k, v) :: kvs => by simp [Json.beqObj, Json.beq_refl v, Json.beqObj_refl kvs]

end

theorem Json.ne_of_beq_false {a b : Json} (h : Json.beq a b = false) : a ≠ b := by
  intro he
  rw [he, Json.beq_refl] at h
  simp at h

mutual

/-- Python repr() of a JSON-decoded value (string escaping inside nested
reprs is not modelled; no claim formats a nested container). -/
def pyReprJ : Json → String
  | .null => "None"
  | .bool true => "True"
  | .bool false => "False"
  | .num n => toString n
  | .str s => "\x27" ++ s ++ "\x27"
  | .arr xs => "[" ++ pyReprList xs ++ "]"
  | .obj kvs => "\x7b" ++ pyReprObj kvs ++ "\x7d"

/-- Comma-separated reprs of the elements of a list. -/
def pyReprList : List Json → String
  | [] => ""
  | [x] => pyReprJ x
  | x :: xs => pyReprJ x ++ ", " ++ pyReprList xs

/-- Comma-separated `key: value` reprs of the entries of a dict. -/
def pyReprObj : List (String × Json) → String
  | [] => ""
  | [(k, v)] => "\x27" ++ k ++ "\x27: " ++ pyReprJ v
  | (k, v) :: kvs => "\x27" ++ k ++ "\x27: " ++ pyReprJ v ++ ", " ++ pyReprObj kvs

end

/-- Python str() of a JSON-decoded value, as applied by an f-string:
a str renders as itself, every other value as its repr (for bool, None
and int the repr is the usual rendering). -/
def pyStrJ : Json → String
  | .str s => s
  | j => pyReprJ j

/-- Exceptions the embedded code can raise.  `httpError` carries the
status code, the reason phrase and the response body text read in the
handler of `urllib.error.HTTPError`; `urlError` is any transport-level
failure of `urlopen` (connection refused, timeout). -/
inductive PyExn where
  | keyError (key : String)
  | typeError (msg : String)
  | valueError (msg : String)
  | attributeError (msg : String)
  | httpError (code : Nat) (reason : String) (body : String)
  | urlError (msg : String)
  deriving DecidableEq

/-- Python str(e) for each exception, as interpolated by the f-string
`f"LLM backend error: \x7be\x7d"` in the 502 branch of the handler. -/
def pyStrExn : PyExn → String
  | .keyError k => "\x27" ++ k ++ "\x27"
  | .typeError m => m
  | .valueError m => m
  | .attributeError m => m
  | .httpError code reason _ => "HTTP Error " ++ toString code ++ ": " ++ reason
  | .urlError m => "<urlopen error " ++ m ++ ">"

/-- Python subscript `j[k]` with a string key: succeeds only on a dict
that holds the key (KeyError when the key is missing, TypeError on any
non-dict value; message texts are abbreviated from CPython). -/
def getItem : Json → String → Except PyExn Json
  | .obj kvs, k =>
      match jLookup kvs k with
      | some v => .ok v
      | none => .error (.keyError k)
  | .arr _, _ => .error (.typeError "list indices must be integers or slices, not str")
  | .str _, _ => .error (.typeError "string indices must be integers")
  | .num _, _ => .error (.typeError "int object is not subscriptable")
  | .bool _, _ => .error (.typeError "bool object is not subscriptable")
  | .null, _ => .error (.typeError "NoneType object is not subscriptable")

/-- Python iteration `for m in x`: lists yield their elements, strings
their one-character substrings, dicts their keys; other values raise
TypeError. -/
def pyIter : Json → Except PyExn (List Json)
  | .arr xs => .ok xs
  | .str s => .ok (s.data.map fun c => Json.str (String.mk [c]))
  | .obj kvs => .ok (kvs.map fun kv => Json.str kv.1)
  | .num _ => .error (.typeError "int object is not iterable")
  | .bool _ => .error (.typeError "bool object is not iterable")
  | .null => .error (.typeError "NoneType object is not iterable")

/-- The body of the for-loop of `_build_prompt`: one line
`f"\x7bm[role]\x7d: \x7bm[content]\x7d"` per history entry, stopping at
the first entry whose subscripting raises. -/
def promptLines : List Json → Except PyExn (List String)
  | [] => .ok []
  | m :: ms =>
      match getItem m "role" with
      | .error e => .error e
      | .ok role =>
          match getItem m "content" with
          | .error e => .error e
          | .ok content =>
              match promptLines ms with
              | .error e => .error e
              | .ok rest => .ok ((pyStrJ role ++ ": " ++ pyStrJ content) :: rest)

/-- Embeds `_build_prompt(messages, latest_user_msg)` from
src/lambda/index.py: header line, one `role: content` line per history
entry, `user: latest`, trailing `assistant: `, joined with newlines. -/
def _build_prompt (messages : Json) (latest_user_msg : Json) : Except PyExn String :=
  match pyIter messages with
  | .error e => .error e
  | .ok items =>
      match promptLines items with
      | .error e => .error e
      | .ok lines =>
          .ok (String.intercalate "\n"
            ("## 会話履歴" :: (lines ++ ["user: " ++ pyStrJ latest_user_msg, "assistant: "])))

/-- Module-level configuration read from the environment at load time:
LLM_API_URL (with the placeholder default of the source) and TIMEOUT. -/
structure Config where
  LLM_API_URL : String := "https://YOUR_NGROK_URL.ngrok-free.app/generate"
  TIMEOUT : Nat := 60
  deriving DecidableEq

/-- The JSON request body sent to the inference endpoint (the source
builds it with json.dumps; the wire encoding is abstracted away). -/
structure GenPayload where
  prompt : String
  max_new_tokens : Nat
  do_sample : Bool
  temperature : Rat
  top_p : Rat
  deriving DecidableEq

/-- The `urllib.request.Request` built by `_call_llm`, together with the
timeout passed to urlopen. -/
structure HttpRequest where
  url : String
  data : GenPayload
  headers : List (String × String)
  method : String
  timeout : Nat
  deriving DecidableEq

/-- Outcome of the single `urlopen` call: a 2xx response with its body
text, an `urllib.error.HTTPError` with status, reason and body text, or
a transport-level failure (connection refused, timeout). -/
inductive HttpResult where
  | ok (body : String)
  | httpError (code : Nat) (reason : String) (body : String)
  | transportError (msg : String)

/-- The request object built in `_call_llm` (lines 55 to 71 of the
source): POST to LLM_API_URL, Content-Type application/json, JSON body
with the prompt and the fixed sampling parameters. -/
def genRequest (cfg : Config) (prompt : String) : HttpRequest :=
  { url := cfg.LLM_API_URL
    data := { prompt := prompt
              max_new_tokens := 256
              do_sample := true
              temperature := 7/10
              top_p := 9/10 }
    headers := [("Content-Type", "application/json")]
    method := "POST"
    timeout := cfg.TIMEOUT }

/-- Embeds `_call_llm(prompt)`: issue the request (recorded in the
returned trace), decode the response body as JSON, subscript
`generated_text`.  Both except branches of the source log and re-raise,
so every failure propagates as the original exception. -/
def _call_llm (cfg : Config) (loads : String → Option Json)
    (http : HttpRequest → HttpResult) (prompt : String) :
    Except PyExn Json × List HttpRequest :=
  let request := genRequest cfg prompt
  match http request with
  | .ok respBody =>
      match loads respBody with
      | some rsp_json => (getItem rsp_json "generated_text", [request])
      | none => (.error (.valueError "Expecting value"), [request])
  | .httpError code reason body => (.error (.httpError code reason body), [request])
  | .transportError msg => (.error (.urlError msg), [request])

/-- Body of a Lambda response dict: either a plain string (the 400 and
502 branches) or `json.dumps` of a JSON value (the 200 branch). -/
inductive RBody where
  | raw (s : String)
  | jsonBody (j : Json)

/-- The dict returned by the handler.  `headers` is `Option` so that
the absence of a headers key is statable; the source never sets one, so
every constructed response leaves the default `none`. -/
structure LambdaResponse where
  statusCode : Nat
  body : RBody
  headers : Option (List (String × String)) := none

/-- A handler run either returns a response dict or terminates with an
uncaught exception. -/
inductive HandlerOutcome where
  | resp (r : LambdaResponse)
  | uncaught (e : PyExn)

/-- The dict `\x7b"role": role, "content": content\x7d` appended to the
history in step 4 of the handler. -/
def mkChatMessage (role : String) (content : Json) : Json :=
  Json.obj [("role", Json.str role), ("content", content)]

/-- Python `+` on a JSON-decoded value and a list, as used in
`conversation_history + [ ... ]` (step 4, outside both try blocks). -/
def pyAdd : Json → List Json → Except PyExn Json
  | .arr xs, ys => .ok (.arr (xs ++ ys))
  | .str _, _ => .error (.typeError "can only concatenate str to str")
  | _, _ => .error (.typeError "unsupported operand types for +")

/-- Embeds `lambda_handler(event, context)`.  Step 1 (parse) catches
KeyError, ValueError and TypeError and answers 400 with the plain body
"bad request"; step 2 (`_build_prompt`) runs outside any try block, so
its exceptions escape; step 3 maps any `_call_llm` exception to 502
with the plain body `LLM backend error: str(e)`; step 4 appends the two
new messages (again outside any try block) and answers 200 with the
dumped `assistantResponse` / `conversationHistory` object.  The second
component is the trace of downstream requests issued during the run. -/
def lambda_handler (cfg : Config) (loads : String → Option Json)
    (http : HttpRequest → HttpResult) (event : Json) :
    HandlerOutcome × List HttpRequest :=
  match event with
  | .obj eventFields =>
    let body0 := (jLookup eventFields "body").getD event
    let bodyE : Except PyExn Json :=
      match body0 with
      | .str s =>
          match loads s with
          | some j => .ok j
          | none => .error (.valueError "Expecting value")
      | b => .ok b
    match bodyE with
    | .error _ => (.resp { statusCode := 400, body := .raw "bad request" }, [])
    | .ok body =>
      match getItem body "message" with
      | .error _ => (.resp { statusCode := 400, body := .raw "bad request" }, [])
      | .ok user_message =>
        let conversation_history :=
          match body with
          | .obj kvs => (jLookup kvs "conversationHistory").getD (Json.arr [])
          | _ => Json.arr []
        match _build_prompt conversation_history user_message with
        | .error e => (.uncaught e, [])
        | .ok prompt =>
          match _call_llm cfg loads http prompt with
          | (.error e, reqs) =>
              (.resp { statusCode := 502, body := .raw ("LLM backend error: " ++ pyStrExn e) }, reqs)
          | (.ok assistant_response, reqs) =>
              match pyAdd conversation_history
                  [mkChatMessage "user" user_message,
                   mkChatMessage "assistant" assistant_response] with
              | .error e => (.uncaught e, reqs)
              | .ok new_history =>
                  (.resp { statusCode := 200,
                           body := .jsonBody (Json.obj
                             [("assistantResponse", assistant_response),
                              ("conversationHistory", new_history)]) }, reqs)
  | _ => (.uncaught (.attributeError "object has no attribute get"), [])


/-- True exactly when the parse stage of `lambda_handler` (step 1 of the
source) raises one of the caught exception classes: the string body does
not decode, the decoded or direct body is not a dict, or the dict has no
`message` key. -/
def requestMalformed (loads : String → Option Json) (event : Json) : Bool :=
  match event with
  | .obj eventFields =>
    match (jLookup eventFields "body").getD event with
    | .str s =>
        match loads s with
        | none => true
        | some (.obj bodyFields) => (jLookup bodyFields "message").isNone
        | some _ => true
    | .obj bodyFields => (jLookup bodyFields "message").isNone
    | _ => true
  | _ => false

/-- Whether a response body is a JSON object carrying the given key
(a plain-string body carries no field at all). -/
def RBody.hasJsonField : RBody → String → Bool
  | .jsonBody (.obj kvs), k => (jLookup kvs k).isSome
  | _, _ => false

/-- Headers of the response of a finished run (an uncaught run has no
response, hence no headers). -/
def outcomeHeaders : HandlerOutcome × List HttpRequest → Option (List (String × String))
  | (.resp r, _) => r.headers
  | (.uncaught _, _) => none

/-- Fixture: decode function that recognises one response body. -/
def loadsHello : String → Option Json :=
  fun s => if s = "RESP" then some (Json.obj [("generated_text", Json.str "Hello!")]) else none

/-- Fixture: downstream that always answers 200 with body RESP. -/
def httpHello : HttpRequest → HttpResult := fun _ => HttpResult.ok "RESP"

/-- Fixture: downstream that always answers HTTP 500. -/
def http500 : HttpRequest → HttpResult :=
  fun _ => HttpResult.httpError 500 "Internal Server Error" "upstream exploded"

/-- Fixture: decode function that never succeeds. -/
def loads0 : String → Option Json := fun _ => none

/-- Fixture: the example event of the spec. -/
def evHi : Json := Json.obj [("message", Json.str "Hi"), ("conversationHistory", Json.arr [])]

/-- The success body the code actually produces on the spec example. -/
def actualHiBody : Json :=
  Json.obj [("assistantResponse", Json.str "Hello!"),
            ("conversationHistory", Json.arr
              [mkChatMessage "user" (Json.str "Hi"),
               mkChatMessage "assistant" (Json.str "Hello!")])]

/-- Modelled from the spec: the success body shape the spec asserts for
the example input, with keys success, response and conversationHistory. -/
def specSuccessBodyHi : Json :=
  Json.obj [("success", Json.bool true), ("response", Json.str "Hello!"),
            ("conversationHistory", Json.arr
              [mkChatMessage "user" (Json.str "Hi"),
               mkChatMessage "assistant" (Json.str "Hello!")])]

/-- C1: when parsing succeeds and the downstream call succeeds, the
returned conversationHistory is the input history with exactly the new
user message and the new assistant message appended, in that order, the
input entries unchanged. -/
theorem history_append_two (cfg : Config) (loads : String → Option Json)
    (http : HttpRequest → HttpResult) (m g : Json) (hist : List Json) (p : String)
    (reqs : List HttpRequest)
    (hbuild : _build_prompt (Json.arr hist) m = .ok p)
    (hcall : _call_llm cfg loads http p = (.ok g, reqs)) :
    (lambda_handler cfg loads http
        (Json.obj [("message", m), ("conversationHistory", Json.arr hist)])).1
      = .resp { statusCode := 200,
                body := .jsonBody (Json.obj
                  [("assistantResponse", g),
                   ("conversationHistory",
                    Json.arr (hist ++ [mkChatMessage "user" m, mkChatMessage "assistant" g]))]) } := by
  unfold lambda_handler
  simp [jLookup, getItem, hbuild, hcall, pyAdd]

theorem history_append_two_witness :
    (lambda_handler {} loadsHello httpHello evHi).1
      = .resp { statusCode := 200,
                body := .jsonBody (Json.obj
                  [("assistantResponse", Json.str "Hello!"),
                   ("conversationHistory",
                    Json.arr ([] ++ [mkChatMessage "user" (Json.str "Hi"),
                                     mkChatMessage "assistant" (Json.str "Hello!")]))]) } :=
  history_append_two {} loadsHello httpHello (Json.str "Hi") (Json.str "Hello!") []
    "## 会話履歴\nuser: Hi\nassistant: "
    [genRequest {} "## 会話履歴\nuser: Hi\nassistant: "] rfl rfl


/-- C2 (amended): for every run of the handler, over every
configuration, decode function, downstream oracle and event, a response
with status 200 carries as body the dumped JSON object whose keys are
exactly assistantResponse (the generated value) and conversationHistory
(the new history), in that order; in particular no success and no
response key exists in any success body. -/
theorem success_envelope_universal (cfg : Config) (loads : String → Option Json)
    (http : HttpRequest → HttpResult) (event : Json) (r : LambdaResponse)
    (h : (lambda_handler cfg loads http event).1 = .resp r)
    (h200 : r.statusCode = 200) :
    ∃ g nh, r.body = .jsonBody (Json.obj
        [("assistantResponse", g), ("conversationHistory", nh)])
      ∧ RBody.hasJsonField r.body "success" = false
      ∧ RBody.hasJsonField r.body "response" = false := by
  unfold lambda_handler at h
  dsimp only at h
  repeat' split at h
  all_goals dsimp only at h
  all_goals cases h
  all_goals first
    | exact ⟨_, _, rfl, rfl, rfl⟩
    | simp at h200

theorem success_envelope_universal_witness :
    ∃ g nh, (RBody.jsonBody actualHiBody : RBody) = .jsonBody (Json.obj
        [("assistantResponse", g), ("conversationHistory", nh)])
      ∧ RBody.hasJsonField (RBody.jsonBody actualHiBody) "success" = false
      ∧ RBody.hasJsonField (RBody.jsonBody actualHiBody) "response" = false :=
  success_envelope_universal {} loadsHello httpHello evHi
    { statusCode := 200, body := .jsonBody actualHiBody } rfl rfl

/-- C2 counterexample: on the spec example the body produced differs
from the success / response envelope the claim asserts, and carries no
success key at all. -/
theorem success_envelope_spec_counterexample :
    (lambda_handler {} loadsHello httpHello evHi).1
      = .resp { statusCode := 200, body := .jsonBody actualHiBody }
    ∧ actualHiBody ≠ specSuccessBodyHi
    ∧ RBody.hasJsonField (.jsonBody actualHiBody) "success" = false :=
  ⟨rfl, Json.ne_of_beq_false (by decide), rfl⟩

/-- C3 (amended): whenever the parse stage fails (message key absent,
string body that does not decode, or a non-dict body), the handler
answers 400 with the plain string body bad request and the downstream
oracle is never invoked. -/
theorem bad_request_plain (cfg : Config) (loads : String → Option Json)
    (http : HttpRequest → HttpResult) (event : Json)
    (h : requestMalformed loads event = true) :
    lambda_handler cfg loads http event
      = (.resp { statusCode := 400, body := .raw "bad request" }, []) := by
  cases event with
  | null => simp [requestMalformed] at h
  | bool b => simp [requestMalformed] at h
  | num n => simp [requestMalformed] at h
  | str s => simp [requestMalformed] at h
  | arr xs => simp [requestMalformed] at h
  | obj eventFields =>
    unfold requestMalformed at h
    dsimp only at h
    unfold lambda_handler
    dsimp only
    rcases hb0 : (jLookup eventFields "body").getD (Json.obj eventFields) with
        _ | b | n | s | xs | bodyFields
    · rfl
    · rfl
    · rfl
    · rw [hb0] at h
      dsimp only at h ⊢
      rcases hl : loads s with _ | j
      · rfl
      · rw [hl] at h
        rcases j with _ | b | n | t | xs | bodyFields
        · rfl
        · rfl
        · rfl
        · rfl
        · rfl
        · dsimp only at h
          rw [Option.isNone_iff_eq_none] at h
          simp [getItem, h]
    · rfl
    · rw [hb0] at h
      dsimp only at h
      rw [Option.isNone_iff_eq_none] at h
      simp [getItem, h]

theorem bad_request_plain_witness :
    lambda_handler {} loads0 httpHello (Json.obj [])
      = (.resp { statusCode := 400, body := .raw "bad request" }, []) :=
  bad_request_plain {} loads0 httpHello (Json.obj []) rfl

/-- C3 counterexample: a message of the wrong type (an int) is not
rejected; the handler builds a prompt from it, invokes the downstream
client and answers 200. -/
theorem typed_message_spec_counterexample :
    lambda_handler {} loadsHello httpHello
        (Json.obj [("message", Json.num 42), ("conversationHistory", Json.arr [])])
      = (.resp { statusCode := 200,
                 body := .jsonBody (Json.obj
                   [("assistantResponse", Json.str "Hello!"),
                    ("conversationHistory", Json.arr
                      [mkChatMessage "user" (Json.num 42),
                       mkChatMessage "assistant" (Json.str "Hello!")])]) },
         [genRequest {} "## 会話履歴\nuser: 42\nassistant: "]) := rfl

/-- C4 (amended): when the downstream answers an HTTP error status the
handler answers 502; the body is the plain string LLM backend error:
HTTP Error code: reason, which embeds the upstream status code, and no
conversationHistory field is present (the body is not a JSON object). -/
theorem upstream_http_error_502 (cfg : Config) (loads : String → Option Json)
    (http : HttpRequest → HttpResult) (m : Json) (hist : List Json) (p : String)
    (code : Nat) (reason b : String)
    (hbuild : _build_prompt (Json.arr hist) m = .ok p)
    (hhttp : http (genRequest cfg p) = .httpError code reason b) :
    lambda_handler cfg loads http
        (Json.obj [("message", m), ("conversationHistory", Json.arr hist)])
      = (.resp { statusCode := 502,
                 body := .raw ("LLM backend error: " ++ ("HTTP Error " ++ toString code ++ ": " ++ reason)) },
         [genRequest cfg p])
    ∧ RBody.hasJsonField
        (.raw ("LLM backend error: " ++ ("HTTP Error " ++ toString code ++ ": " ++ reason)))
        "conversationHistory" = false := by
  constructor
  · unfold lambda_handler
    simp [jLookup, getItem, hbuild, _call_llm, hhttp, pyStrExn]
  · rfl

theorem upstream_http_error_502_witness :
    lambda_handler {} loadsHello http500 evHi
      = (.resp { statusCode := 502,
                 body := .raw ("LLM backend error: " ++ ("HTTP Error " ++ toString 500 ++ ": " ++ "Internal Server Error")) },
         [genRequest {} "## 会話履歴\nuser: Hi\nassistant: "])
    ∧ RBody.hasJsonField
        (.raw ("LLM backend error: " ++ ("HTTP Error " ++ toString 500 ++ ": " ++ "Internal Server Error")))
        "conversationHistory" = false :=
  upstream_http_error_502 {} loadsHello http500 (Json.str "Hi") []
    "## 会話履歴\nuser: Hi\nassistant: " 500 "Internal Server Error" "upstream exploded" rfl rfl

/-- C4 counterexample: on a concrete HTTP 500 failure the 502 body is a
plain string, so it contains no success key (the claim asserts a body
with success equal to false). -/
theorem upstream_http_error_counterexample :
    (lambda_handler {} loadsHello http500 evHi).1
      = .resp { statusCode := 502,
                body := .raw "LLM backend error: HTTP Error 500: Internal Server Error" }
    ∧ RBody.hasJsonField (.raw "LLM backend error: HTTP Error 500: Internal Server Error")
        "success" = false :=
  ⟨rfl, rfl⟩

/-- C5: a transport-level failure (timeout, connection refused) and a
malformed downstream JSON body are both answered with the same 502
shape; the body appends only the exception text, which carries no HTTP
status code (none exists for these failures). -/
theorem transport_error_502 (cfg : Config) (loads : String → Option Json)
    (http : HttpRequest → HttpResult) (m : Json) (hist : List Json) (p : String)
    (msg s : String)
    (hbuild : _build_prompt (Json.arr hist) m = .ok p) :
    (http (genRequest cfg p) = .transportError msg →
      lambda_handler cfg loads http
          (Json.obj [("message", m), ("conversationHistory", Json.arr hist)])
        = (.resp { statusCode := 502,
                   body := .raw ("LLM backend error: " ++ ("<urlopen error " ++ msg ++ ">")) },
           [genRequest cfg p]))
    ∧ (http (genRequest cfg p) = .ok s → loads s = none →
      lambda_handler cfg loads http
          (Json.obj [("message", m), ("conversationHistory", Json.arr hist)])
        = (.resp { statusCode := 502,
                   body := .raw "LLM backend error: Expecting value" },
           [genRequest cfg p])) := by
  constructor
  · intro hhttp
    unfold lambda_handler
    simp [jLookup, getItem, hbuild, _call_llm, hhttp, pyStrExn]
  · intro hhttp hloads
    unfold lambda_handler
    simp [jLookup, getItem, hbuild, _call_llm, hhttp, hloads, pyStrExn]

theorem transport_error_502_witness :
    lambda_handler {} loadsHello (fun _ => HttpResult.transportError "timed out") evHi
      = (.resp { statusCode := 502,
                 body := .raw ("LLM backend error: " ++ ("<urlopen error " ++ "timed out" ++ ">")) },
         [genRequest {} "## 会話履歴\nuser: Hi\nassistant: "]) :=
  (transport_error_502 {} loadsHello (fun _ => HttpResult.transportError "timed out")
    (Json.str "Hi") [] "## 会話履歴\nuser: Hi\nassistant: " "timed out" "unused" rfl).1 rfl

/-- C6 (amended): no run of the handler returns any headers: the
response dicts of the 200, 400 and 502 branches are all built without a
headers key, so in particular no CORS header set is attached. -/
theorem no_headers_on_any_path (cfg : Config) (loads : String → Option Json)
    (http : HttpRequest → HttpResult) (event : Json) :
    outcomeHeaders (lambda_handler cfg loads http event) = none := by
  unfold lambda_handler
  dsimp only
  repeat' split
  all_goals rfl

/-- C6 counterexample: concrete runs through the success, bad-request
and upstream-error paths all yield a response without any headers, so
none of them carries the cross-origin header set the claim asserts. -/
theorem cors_headers_counterexample :
    outcomeHeaders (lambda_handler {} loadsHello httpHello evHi) = none
    ∧ outcomeHeaders (lambda_handler {} loadsHello httpHello (Json.obj [("foo", Json.num 1)])) = none
    ∧ outcomeHeaders (lambda_handler {} loadsHello http500 evHi) = none :=
  ⟨rfl, rfl, rfl⟩


/-- The for-loop of `_build_prompt` on a well-formed history (every
entry a dict with string role and content) yields one role: content
line per entry, in order. -/
theorem promptLines_wellformed (l : List (String × String)) :
    promptLines (l.map fun rc => mkChatMessage rc.1 (Json.str rc.2))
      = .ok (l.map fun rc => rc.1 ++ ": " ++ rc.2) := by
  induction l with
  | nil => rfl
  | cons hd tl ih =>
      simp only [mkChatMessage] at ih
      simp [promptLines, mkChatMessage, getItem, jLookup, pyStrJ, ih]

/-- C7 (amended): on any well-formed history and string message the
prompt is the labeled form with header line ## 会話履歴, one
role: content line per entry in order, then user: message, ending with
assistant: and no trailing newline. -/
theorem build_prompt_labeled (l : List (String × String)) (m : String) :
    _build_prompt (Json.arr (l.map fun rc => mkChatMessage rc.1 (Json.str rc.2))) (Json.str m)
      = .ok (String.intercalate "\n"
          ("## 会話履歴" :: (l.map (fun rc => rc.1 ++ ": " ++ rc.2)
            ++ ["user: " ++ m, "assistant: "]))) := by
  simp [_build_prompt, pyIter, promptLines_wellformed, pyStrJ]

/-- C7 counterexample: the header line the code produces is the
Japanese ## 会話履歴, not ## Conversation History as the claim states. -/
theorem prompt_header_counterexample :
    _build_prompt (Json.arr []) (Json.str "Hi") = .ok "## 会話履歴\nuser: Hi\nassistant: "
    ∧ "## 会話履歴\nuser: Hi\nassistant: " ≠ "## Conversation History\nuser: Hi\nassistant: " :=
  ⟨rfl, by decide⟩

/-- C8: prompt construction is deterministic and pure: the output is a
function of the (history, latest message) pair alone; `_build_prompt`
takes no configuration, oracle or other ambient input. -/
theorem build_prompt_deterministic (h1 h2 m1 m2 : Json)
    (hh : h1 = h2) (hm : m1 = m2) :
    _build_prompt h1 m1 = _build_prompt h2 m2 := by
  rw [hh, hm]

theorem build_prompt_deterministic_witness :
    _build_prompt (Json.arr []) (Json.str "Hi") = _build_prompt (Json.arr []) (Json.str "Hi") :=
  build_prompt_deterministic (Json.arr []) (Json.arr []) (Json.str "Hi") (Json.str "Hi") rfl rfl

/-- C9: for every prompt, `_call_llm` issues exactly one request: a
POST to the configured URL with Content-Type application/json and a
JSON body holding the prompt and the fixed parameters
max_new_tokens 256, do_sample true, temperature 0.7, top_p 0.9; and
when the response decodes to JSON its generated_text field is
returned. -/
theorem call_llm_request_spec (cfg : Config) (loads : String → Option Json)
    (http : HttpRequest → HttpResult) (p : String) :
    (_call_llm cfg loads http p).2 = [genRequest cfg p]
    ∧ (genRequest cfg p).method = "POST"
    ∧ (genRequest cfg p).url = cfg.LLM_API_URL
    ∧ (genRequest cfg p).headers = [("Content-Type", "application/json")]
    ∧ (genRequest cfg p).data
        = { prompt := p, max_new_tokens := 256, do_sample := true,
            temperature := 7/10, top_p := 9/10 }
    ∧ (∀ s j g, http (genRequest cfg p) = .ok s → loads s = some j →
        getItem j "generated_text" = .ok g → (_call_llm cfg loads http p).1 = .ok g) := by
  refine ⟨?_, rfl, rfl, rfl, rfl, ?_⟩
  · unfold _call_llm
    dsimp only
    rcases http (genRequest cfg p) with s | ⟨c, r, b⟩ | m
    · dsimp only
      rcases loads s with _ | j <;> rfl
    · rfl
    · rfl
  · intro s j g hs hl hg
    unfold _call_llm
    dsimp only
    rw [hs]
    dsimp only
    rw [hl]
    dsimp only
    rw [hg]

theorem call_llm_request_spec_witness :
    (_call_llm {} loadsHello httpHello "P").1 = .ok (Json.str "Hello!")
    ∧ (_call_llm {} loadsHello httpHello "P").2 = [genRequest {} "P"] :=
  ⟨(call_llm_request_spec {} loadsHello httpHello "P").2.2.2.2.2 "RESP"
      (Json.obj [("generated_text", Json.str "Hello!")]) (Json.str "Hello!") rfl rfl rfl,
   (call_llm_request_spec {} loadsHello httpHello "P").1⟩

/-- C10: an input that passes parsing but whose conversationHistory
holds an entry that is not a dict (here a string) or a dict without a
role key makes `_build_prompt` raise outside both try blocks, so the
run ends in an uncaught exception and no response — neither 400 nor
502 — is returned, and the downstream client is never invoked. -/
theorem nonconforming_history_uncaught (cfg : Config)
    (loads : String → Option Json) (http : HttpRequest → HttpResult) :
    (lambda_handler cfg loads http
        (Json.obj [("message", Json.str "hi"),
                   ("conversationHistory", Json.arr [Json.str "oops"])]))
      = (.uncaught (PyExn.typeError "string indices must be integers"), [])
    ∧ (lambda_handler cfg loads http
        (Json.obj [("message", Json.str "hi"),
                   ("conversationHistory", Json.arr [Json.obj [("content", Json.str "x")]])]))
      = (.uncaught (PyExn.keyError "role"), []) :=
  ⟨rfl, rfl⟩

end SimpleChat
